import Mathlib

/-!
Verification of the OpenPackage GUI shell bootstrapper
(`src/packages/gui/src-tauri/src/main.rs`).

The source is a minimal Tauri entry point:

  fn main() {
      tauri::Builder::default()
          .run(tauri::generate_context!())
          .expect("error while running tauri application");
  }

The tauri host library is an external dependency, so its observable
behavior (graceful shutdown, initialization failure, run-loop failure) is
a parameter of the model.  What we embed faithfully from the source is the
composition: a default builder, the compile-time generated context, the
single blocking invocation of the host run loop, and `Result::expect`,
which on `Err e` panics with the fixed message followed by the error's
debug rendering (Rust panics terminate the process with exit code 101)
and on `Ok` lets `main` return, so the process exits with status 0.
-/

namespace Shell

/-- Where an error surfaced by the host originates.  `missingContext` is
included so we can state that it never occurs at runtime: the context is
resolved by `tauri::generate_context!` at compile time. -/
inductive ErrorSource where
  | missingContext
  | hostInit
  | runLoop
deriving DecidableEq, Repr

/-- Model of a `tauri::Error` value: its origin and the string produced by
its `Debug` rendering, which is what `Result::expect` appends to the panic
message. -/
structure TauriError where
  source : ErrorSource
  debugRepr : String
deriving DecidableEq, Repr

/-- Model of the runtime context produced by `tauri::generate_context!`:
an opaque bundle of window configuration, asset manifest and command
registry.  Modelled from the spec: the bundle's format is owned by external
build tooling; `validAtRuntime` records whether the host can initialize
from it (e.g. whether the window configuration is acceptable to the
platform). -/
structure Context where
  windowConfig : String
  assetManifest : List String
  commandRegistry : List String
  validAtRuntime : Bool
deriving DecidableEq, Repr

/-- The on-disk bundle consumed by the compile-time code generation step
(`tauri.conf.json`, assets).  Modelled from the spec: the bundle is
produced by an external build step. -/
structure ContextBundle where
  present : Bool
  wellFormed : Bool
  payload : Context
deriving DecidableEq, Repr

/-- Modelled from the spec and the `tauri::generate_context!` call site:
the macro resolves the context bundle at compile time; an absent or
malformed bundle yields no generated context (a build failure), never a
runtime value. -/
def generateContext (bundle : ContextBundle) : Option Context :=
  if bundle.present && bundle.wellFormed then some bundle.payload else none

/-- A compiled shell binary: it exists only when code generation
succeeded, and it carries the generated context embedded in it. -/
structure Program where
  ctx : Context
deriving DecidableEq, Repr

/-- Building the shell: compile-time context generation determines whether
a binary exists at all. -/
def buildProgram (bundle : ContextBundle) : Option Program :=
  (generateContext bundle).map Program.mk

/-- Model of `tauri::Builder`: the source only ever uses the default
configuration and registers nothing on it. -/
structure Builder where
  invokeHandlerRegistered : Bool
  pluginCount : Nat
deriving DecidableEq, Repr

/-- `tauri::Builder::default()`: fixed default configuration, no handlers,
no plugins. -/
def Builder.default : Builder :=
  { invokeHandlerRegistered := false, pluginCount := 0 }

/-- How the external host run loop ends, as observed by `main`. -/
inductive HostOutcome where
  | gracefulShutdown
  | initError (e : TauriError)
  | runLoopError (e : TauriError)
deriving DecidableEq, Repr

/-- Whether a window was ever shown in a given host outcome.  Modelled
from the spec: initialization failure happens before any window appears;
a run-loop error happens mid-session, after the window opened. -/
def HostOutcome.windowShown : HostOutcome → Bool
  | .gracefulShutdown => true
  | .initError _ => false
  | .runLoopError _ => true

/-- The externally chosen behavior of the host for a context it can
initialize from: shut down gracefully, fail platform initialization, or
fail inside the run loop. -/
inductive HostBehavior where
  | shutdown
  | platformInitFailure (msg : String)
  | runLoopFailure (msg : String)
deriving DecidableEq, Repr

/-- Debug rendering of the host's error when the embedded context is not
usable at runtime. -/
def invalidContextMsg : String := "Runtime(CreateWebview(InvalidWindowConfiguration))"

/-- Modelled from the spec: the host run loop.  Given a context the host
cannot initialize from, initialization fails before any window is shown;
otherwise the externally chosen behavior decides the outcome.  Every error
it produces originates in host initialization or in the run loop. -/
def hostRun (ctx : Context) (b : HostBehavior) : HostOutcome :=
  if ctx.validAtRuntime then
    match b with
    | .shutdown => .gracefulShutdown
    | .platformInitFailure m => .initError { source := .hostInit, debugRepr := m }
    | .runLoopFailure m => .runLoopError { source := .runLoop, debugRepr := m }
  else
    .initError { source := .hostInit, debugRepr := invalidContextMsg }

/-- `tauri::Builder::run`: blocks for the lifetime of the application and
returns `Ok(())` on graceful shutdown or the host's error. -/
def Builder.run (bu : Builder) (ctx : Context) (b : HostBehavior) :
    Except TauriError Unit :=
  match hostRun ctx b with
  | .gracefulShutdown => .ok ()
  | .initError e => .error e
  | .runLoopError e => .error e

/-- The string literal passed to `.expect(...)` in `main.rs`. -/
def expectMsg : String := "error while running tauri application"

/-- Separator `Result::expect` places between its message and the error's
debug rendering. -/
def colonSep : String := ": "

/-- The panic payload of `Result::expect`: the fixed message, `": "`, then
the error's debug rendering. -/
def panicMessage (msg : String) (e : TauriError) : String :=
  msg ++ colonSep ++ e.debugRepr

/-- Exit status of a Rust process terminated by a panic. -/
def rustPanicExitCode : Nat := 101

/-- Observable outcome of one process run: exit status and what the
component itself wrote to the error stream. -/
structure ProcessOutcome where
  exitCode : Nat
  stderr : String
deriving DecidableEq, Repr

/-- `Result::expect` at the end of `main`: `Ok` lets `main` return and the
process exit with status 0 and nothing on the error stream; `Err e` panics
with the fixed diagnostic, terminating the process with the panic exit
status. -/
def expectOutcome (r : Except TauriError Unit) (msg : String) : ProcessOutcome :=
  match r with
  | .ok _ => { exitCode := 0, stderr := "" }
  | .error e => { exitCode := rustPanicExitCode, stderr := panicMessage msg e }

/-- The embedding of `fn main()`: default builder, run with the generated
context, `expect` on the result.  The context and the host behavior are
the parameters standing for the compile-time generated bundle and the
external host runtime. -/
def main (ctx : Context) (b : HostBehavior) : ProcessOutcome :=
  expectOutcome (Builder.run Builder.default ctx b) expectMsg

/-- Whether a window was shown during the run described by `ctx` and
`b`. -/
def windowWasShown (ctx : Context) (b : HostBehavior) : Bool :=
  (hostRun ctx b).windowShown

/-- Events of one process run, in order.  The read/write constructors for
configuration files, environment variables and persisted state are part of
the effect vocabulary so that we can state the component never performs
them. -/
inductive Event where
  | buildBuilder
  | attachContext
  | invokeRunLoop
  | readConfigFile (path : String)
  | readEnvVar (n : String)
  | readPersistedState (k : String)
  | writeConfigFile (path : String)
  | writeEnvVar (n : String)
  | writePersistedState (k : String)
  | emitErrorStream (s : String)
  | exitProcess (code : Nat)
deriving DecidableEq, Repr

/-- The event trace of `main`: construct the default builder, attach the
generated context, invoke the blocking run loop exactly once, then either
exit 0 or emit the fatal diagnostic and exit with the panic status. -/
def startTrace (ctx : Context) (b : HostBehavior) : List Event :=
  [Event.buildBuilder, Event.attachContext, Event.invokeRunLoop] ++
    match Builder.run Builder.default ctx b with
    | .ok _ => [Event.exitProcess 0]
    | .error e =>
        [Event.emitErrorStream (panicMessage expectMsg e),
         Event.exitProcess rustPanicExitCode]

/-- Recognizes the run-loop invocation event. -/
def Event.isInvokeRunLoop : Event → Bool
  | .invokeRunLoop => true
  | _ => false

/-- Recognizes any access (read or write) to configuration files,
environment variables or persisted state. -/
def Event.isConfigEnvOrStateAccess : Event → Bool
  | .readConfigFile _ => true
  | .readEnvVar _ => true
  | .readPersistedState _ => true
  | .writeConfigFile _ => true
  | .writeEnvVar _ => true
  | .writePersistedState _ => true
  | _ => false

/-- Recognizes any output effect the component could perform. -/
def Event.isOutputEffect : Event → Bool
  | .writeConfigFile _ => true
  | .writeEnvVar _ => true
  | .writePersistedState _ => true
  | .emitErrorStream _ => true
  | _ => false

/-- The process lifecycle phases of the spec's state machine. -/
inductive Phase where
  | notStarted
  | running
  | terminatedOk
  | terminatedFatal
deriving DecidableEq, Repr

/-- The lifecycle transition relation realized by `main`: the process
launches into the run loop, and the run loop's completion terminates it,
fatally exactly when the exit status is non-zero. -/
inductive LifeStep (ctx : Context) (b : HostBehavior) : Phase → Phase → Prop
  | launch : LifeStep ctx b .notStarted .running
  | finishOk : (main ctx b).exitCode = 0 → LifeStep ctx b .running .terminatedOk
  | finishFatal : (main ctx b).exitCode ≠ 0 → LifeStep ctx b .running .terminatedFatal

/-- The sequence of lifecycle phases a run of `main` passes through. -/
def phaseTrace (ctx : Context) (b : HostBehavior) : List Phase :=
  [Phase.notStarted, Phase.running,
   if (main ctx b).exitCode = 0 then Phase.terminatedOk else Phase.terminatedFatal]

/-- The runtime parameters a process receives from its environment; the
shell never consults them. -/
structure ProcessEnv where
  argv : List String
  envVars : List (String × String)
deriving DecidableEq, Repr

/-- A full process run with its ambient environment.  `main.rs` reads
neither the argument vector nor any environment variable, so the outcome
is that of `main` alone. -/
def processRun (env : ProcessEnv) (ctx : Context) (b : HostBehavior) :
    ProcessOutcome :=
  main ctx b

/-- Label of the single configured window in the sample contexts. -/
def mainWindowLabel : String := "main"

/-- A context the host can initialize from, used to instantiate the
theorems at concrete inputs. -/
def sampleContext : Context :=
  { windowConfig := mainWindowLabel, assetManifest := [], commandRegistry := [],
    validAtRuntime := true }

/-- A context the host cannot initialize from. -/
def badContext : Context :=
  { windowConfig := mainWindowLabel, assetManifest := [], commandRegistry := [],
    validAtRuntime := false }

/-- Debug rendering used in the concrete host-failure instantiations. -/
def bootFailureMsg : String := "Runtime(CreateWebview(PlatformFailure))"

/-- Debug rendering used in the concrete mid-session-failure
instantiations. -/
def midSessionMsg : String := "Runtime(EventLoopClosed)"

theorem hostRun_initError_source (ctx : Context) (b : HostBehavior)
    (e : TauriError) (h : hostRun ctx b = HostOutcome.initError e) :
    e.source = ErrorSource.hostInit := by
  unfold hostRun at h
  by_cases hv : ctx.validAtRuntime
  · rw [if_pos hv] at h
    cases b with
    | shutdown => exact absurd h (by simp)
    | platformInitFailure m =>
        simp only [HostOutcome.initError.injEq] at h
        rw [← h]
    | runLoopFailure m => exact absurd h (by simp)
  · rw [if_neg hv] at h
    simp only [HostOutcome.initError.injEq] at h
    rw [← h]

theorem hostRun_runLoopError_source (ctx : Context) (b : HostBehavior)
    (e : TauriError) (h : hostRun ctx b = HostOutcome.runLoopError e) :
    e.source = ErrorSource.runLoop := by
  unfold hostRun at h
  by_cases hv : ctx.validAtRuntime
  · rw [if_pos hv] at h
    cases b with
    | shutdown => exact absurd h (by simp)
    | platformInitFailure m => exact absurd h (by simp)
    | runLoopFailure m =>
        simp only [HostOutcome.runLoopError.injEq] at h
        rw [← h]
  · rw [if_neg hv] at h
    exact absurd h (by simp)

theorem builderRun_error_of_hostRun (ctx : Context) (b : HostBehavior)
    (e : TauriError)
    (h : hostRun ctx b = HostOutcome.initError e ∨
         hostRun ctx b = HostOutcome.runLoopError e) :
    Builder.run Builder.default ctx b = Except.error e := by
  unfold Builder.run
  rcases h with h | h <;> rw [h]

theorem main_error_case (ctx : Context) (b : HostBehavior) (e : TauriError)
    (h : Builder.run Builder.default ctx b = Except.error e) :
    main ctx b =
      { exitCode := rustPanicExitCode, stderr := panicMessage expectMsg e } := by
  unfold main expectOutcome
  rw [h]

theorem panicMessage_ne_empty (msg : String) (e : TauriError) :
    panicMessage msg e ≠ "" := by
  intro hcontra
  have hlen := congrArg String.length hcontra
  simp only [panicMessage, String.length_append] at hlen
  have hsep : colonSep.length = 2 := by decide
  have hnil : ("" : String).length = 0 := by decide
  omega

/-- C1: whenever the host fails to initialize or the run loop reports an
error, `main` terminates the process with a non-zero exit status and the
error-stream diagnostic contains the error's description, for every error
value. -/
theorem shell_fatal_on_host_error (ctx : Context) (b : HostBehavior)
    (e : TauriError)
    (h : hostRun ctx b = HostOutcome.initError e ∨
         hostRun ctx b = HostOutcome.runLoopError e) :
    (main ctx b).exitCode ≠ 0 ∧
      ∃ before : String, (main ctx b).stderr = before ++ e.debugRepr := by
  have hrun := builderRun_error_of_hostRun ctx b e h
  rw [main_error_case ctx b e hrun]
  refine ⟨by simp [rustPanicExitCode], expectMsg ++ colonSep, ?_⟩
  rfl

/-- Witness for C1 at a concrete run-loop failure. -/
theorem shell_fatal_on_host_error_witness :
    (main sampleContext (HostBehavior.runLoopFailure midSessionMsg)).exitCode ≠ 0 ∧
      ∃ before : String,
        (main sampleContext (HostBehavior.runLoopFailure midSessionMsg)).stderr =
          before ++ (TauriError.mk ErrorSource.runLoop midSessionMsg).debugRepr :=
  shell_fatal_on_host_error sampleContext (HostBehavior.runLoopFailure midSessionMsg)
    (TauriError.mk ErrorSource.runLoop midSessionMsg) (Or.inr (by decide))

/-- C2: a context the host cannot initialize from leads to a non-zero
exit, a non-empty diagnostic, and no window; and a context bundle that is
absent produces no program at all, so `main` can never run with a missing
context. -/
theorem invalid_context_fatal (ctx : Context) (b : HostBehavior)
    (bundle : ContextBundle) (h : ctx.validAtRuntime = false)
    (hb : bundle.present = false) :
    (main ctx b).exitCode ≠ 0 ∧ (main ctx b).stderr ≠ "" ∧
      windowWasShown ctx b = false ∧ buildProgram bundle = none := by
  have hhost : hostRun ctx b =
      HostOutcome.initError
        { source := ErrorSource.hostInit, debugRepr := invalidContextMsg } := by
    unfold hostRun
    rw [h]
    simp
  have hrun := builderRun_error_of_hostRun ctx b _ (Or.inl hhost)
  rw [main_error_case ctx b _ hrun]
  refine ⟨by simp [rustPanicExitCode], panicMessage_ne_empty _ _, ?_, ?_⟩
  · unfold windowWasShown
    rw [hhost]
    rfl
  · unfold buildProgram generateContext
    rw [hb]
    rfl

/-- Witness for C2 at the concrete bad context and an absent bundle. -/
theorem invalid_context_fatal_witness :
    (main badContext HostBehavior.shutdown).exitCode ≠ 0 ∧
      (main badContext HostBehavior.shutdown).stderr ≠ "" ∧
      windowWasShown badContext HostBehavior.shutdown = false ∧
      buildProgram (ContextBundle.mk false true sampleContext) = none :=
  invalid_context_fatal badContext HostBehavior.shutdown
    (ContextBundle.mk false true sampleContext) rfl rfl

/-- C3: whenever the host run loop completes successfully, nothing further
fails: the trace ends directly in exit 0, nothing is written to the error
stream, and the exit status is 0. -/
theorem graceful_shutdown_exit_zero (ctx : Context) (b : HostBehavior)
    (h : hostRun ctx b = HostOutcome.gracefulShutdown) :
    (main ctx b).exitCode = 0 ∧ (main ctx b).stderr = "" ∧
      startTrace ctx b =
        [Event.buildBuilder, Event.attachContext, Event.invokeRunLoop,
         Event.exitProcess 0] := by
  have hrun : Builder.run Builder.default ctx b = Except.ok () := by
    unfold Builder.run
    rw [h]
  refine ⟨?_, ?_, ?_⟩
  · unfold main expectOutcome
    rw [hrun]
  · unfold main expectOutcome
    rw [hrun]
  · unfold startTrace
    rw [hrun]
    rfl

/-- Witness for C3 at the concrete valid context. -/
theorem graceful_shutdown_exit_zero_witness :
    (main sampleContext HostBehavior.shutdown).exitCode = 0 ∧
      (main sampleContext HostBehavior.shutdown).stderr = "" ∧
      startTrace sampleContext HostBehavior.shutdown =
        [Event.buildBuilder, Event.attachContext, Event.invokeRunLoop,
         Event.exitProcess 0] :=
  graceful_shutdown_exit_zero sampleContext HostBehavior.shutdown (by decide)

/-- C4: `main` is exactly the composition default-builder → attach
context → blocking run loop → `expect`, and in its event trace the run
loop is invoked after construction and attachment while control leaves the
process (the exit event, preceded on the fatal path only by the
diagnostic) strictly after the run loop has completed. -/
theorem start_blocking_composition (ctx : Context) (b : HostBehavior) :
    main ctx b = expectOutcome (Builder.run Builder.default ctx b) expectMsg ∧
      ((Builder.run Builder.default ctx b = Except.ok () ∧
          startTrace ctx b =
            [Event.buildBuilder, Event.attachContext, Event.invokeRunLoop,
             Event.exitProcess 0]) ∨
        (∃ e : TauriError, Builder.run Builder.default ctx b = Except.error e ∧
          startTrace ctx b =
            [Event.buildBuilder, Event.attachContext, Event.invokeRunLoop,
             Event.emitErrorStream (panicMessage expectMsg e),
             Event.exitProcess rustPanicExitCode])) := by
  refine ⟨rfl, ?_⟩
  rcases hrun : Builder.run Builder.default ctx b with e | u
  · right
    refine ⟨e, rfl, ?_⟩
    unfold startTrace
    rw [hrun]
    rfl
  · cases u
    left
    refine ⟨rfl, ?_⟩
    unfold startTrace
    rw [hrun]
    rfl

/-- C5: the run loop is invoked exactly once per process, and on any error
the trace continues directly with the fatal diagnostic and the non-zero
exit — no retry, no second invocation, no recovery step. -/
theorem fail_fast_single_invocation (ctx : Context) (b : HostBehavior)
    (e : TauriError) (h : Builder.run Builder.default ctx b = Except.error e) :
    (startTrace ctx b).countP Event.isInvokeRunLoop = 1 ∧
      startTrace ctx b =
        [Event.buildBuilder, Event.attachContext, Event.invokeRunLoop,
         Event.emitErrorStream (panicMessage expectMsg e),
         Event.exitProcess rustPanicExitCode] := by
  have htr : startTrace ctx b =
      [Event.buildBuilder, Event.attachContext, Event.invokeRunLoop,
       Event.emitErrorStream (panicMessage expectMsg e),
       Event.exitProcess rustPanicExitCode] := by
    unfold startTrace
    rw [h]
    rfl
  rw [htr]
  exact ⟨rfl, rfl⟩

/-- Witness for C5 at a concrete platform initialization failure. -/
theorem fail_fast_single_invocation_witness :
    (startTrace sampleContext
        (HostBehavior.platformInitFailure bootFailureMsg)).countP
        Event.isInvokeRunLoop = 1 ∧
      startTrace sampleContext (HostBehavior.platformInitFailure bootFailureMsg) =
        [Event.buildBuilder, Event.attachContext, Event.invokeRunLoop,
         Event.emitErrorStream
           (panicMessage expectMsg
             (TauriError.mk ErrorSource.hostInit bootFailureMsg)),
         Event.exitProcess rustPanicExitCode] :=
  fail_fast_single_invocation sampleContext
    (HostBehavior.platformInitFailure bootFailureMsg)
    (TauriError.mk ErrorSource.hostInit bootFailureMsg) rfl

/-- C6: the lifecycle is the machine NotStarted → Running →
Terminated(ok) | Terminated(fatal): the phase trace starts in
`notStarted` and follows the step relation, no step leaves either
terminated phase, and the only step into `running` comes from
`notStarted`. -/
theorem lifecycle_machine (ctx : Context) (b : HostBehavior) (s t : Phase)
    (h : LifeStep ctx b s t) :
    (phaseTrace ctx b).head? = some Phase.notStarted ∧
      List.Chain' (LifeStep ctx b) (phaseTrace ctx b) ∧
      s ≠ Phase.terminatedOk ∧ s ≠ Phase.terminatedFatal ∧
      (t = Phase.running → s = Phase.notStarted) := by
  refine ⟨rfl, ?_, ?_, ?_, ?_⟩
  · unfold phaseTrace
    by_cases hc : (main ctx b).exitCode = 0
    · rw [if_pos hc]
      exact List.Chain'.cons LifeStep.launch
        (List.Chain'.cons (LifeStep.finishOk hc) (List.chain'_singleton _))
    · rw [if_neg hc]
      exact List.Chain'.cons LifeStep.launch
        (List.Chain'.cons (LifeStep.finishFatal hc) (List.chain'_singleton _))
  · cases h <;> simp
  · cases h <;> simp
  · cases h with
    | launch => exact fun _ => rfl
    | finishOk hc => exact fun ht => absurd ht (by simp)
    | finishFatal hc => exact fun ht => absurd ht (by simp)

/-- Witness for C6 at the launch step of a concrete graceful run. -/
theorem lifecycle_machine_witness :
    (phaseTrace sampleContext HostBehavior.shutdown).head? =
        some Phase.notStarted ∧
      List.Chain' (LifeStep sampleContext HostBehavior.shutdown)
        (phaseTrace sampleContext HostBehavior.shutdown) ∧
      Phase.notStarted ≠ Phase.terminatedOk ∧
      Phase.notStarted ≠ Phase.terminatedFatal ∧
      (Phase.running = Phase.running → Phase.notStarted = Phase.notStarted) :=
  lifecycle_machine sampleContext HostBehavior.shutdown Phase.notStarted
    Phase.running LifeStep.launch

/-- C7: the shell takes no runtime parameters and uses the fixed default
configuration, so whenever the attached context and the host behave
identically, the observable outcome is identical, whatever the ambient
process environment is. -/
theorem outcome_determined_by_host (env1 env2 : ProcessEnv)
    (ctx1 ctx2 : Context) (b1 b2 : HostBehavior)
    (h : hostRun ctx1 b1 = hostRun ctx2 b2) :
    processRun env1 ctx1 b1 = processRun env2 ctx2 b2 := by
  unfold processRun main Builder.run
  rw [h]

/-- Witness for C7: two runs under different argument vectors and
environment variables produce the same outcome. -/
theorem outcome_determined_by_host_witness :
    processRun (ProcessEnv.mk [mainWindowLabel] [])
        sampleContext HostBehavior.shutdown =
      processRun (ProcessEnv.mk [] [(mainWindowLabel, mainWindowLabel)])
        sampleContext HostBehavior.shutdown :=
  outcome_determined_by_host (ProcessEnv.mk [mainWindowLabel] [])
    (ProcessEnv.mk [] [(mainWindowLabel, mainWindowLabel)])
    sampleContext sampleContext HostBehavior.shutdown HostBehavior.shutdown rfl

/-- C8: no event of the component's trace reads or writes configuration
files, environment variables or persisted state, and the only output
effect it ever performs is the error-stream diagnostic, which carries
exactly the process's stderr and occurs only on the fatal path. -/
theorem component_frame (ctx : Context) (b : HostBehavior) (ev : Event)
    (hev : ev ∈ startTrace ctx b) :
    ev.isConfigEnvOrStateAccess = false ∧
      (ev.isOutputEffect = true →
        ∃ s : String, ev = Event.emitErrorStream s ∧
          s = (main ctx b).stderr ∧ (main ctx b).exitCode ≠ 0) := by
  rcases hrun : Builder.run Builder.default ctx b with e | u
  · have hmain := main_error_case ctx b e hrun
    unfold startTrace at hev
    rw [hrun] at hev
    simp only [List.cons_append, List.nil_append, List.mem_cons,
      List.not_mem_nil, or_false] at hev
    rcases hev with h | h | h | h | h <;> subst h
    · exact ⟨rfl, fun hh => absurd hh (by decide)⟩
    · exact ⟨rfl, fun hh => absurd hh (by decide)⟩
    · exact ⟨rfl, fun hh => absurd hh (by decide)⟩
    · refine ⟨rfl, fun _ => ⟨panicMessage expectMsg e, rfl, ?_, ?_⟩⟩
      · rw [hmain]
      · rw [hmain]
        simp [rustPanicExitCode]
    · exact ⟨rfl, fun hh => absurd hh (by decide)⟩
  · cases u
    unfold startTrace at hev
    rw [hrun] at hev
    simp only [List.cons_append, List.nil_append, List.mem_cons,
      List.not_mem_nil, or_false] at hev
    rcases hev with h | h | h | h <;> subst h
    · exact ⟨rfl, fun hh => absurd hh (by decide)⟩
    · exact ⟨rfl, fun hh => absurd hh (by decide)⟩
    · exact ⟨rfl, fun hh => absurd hh (by decide)⟩
    · exact ⟨rfl, fun hh => absurd hh (by decide)⟩

/-- Witness for C8 at the run-loop invocation event of a concrete graceful
run. -/
theorem component_frame_witness :
    Event.invokeRunLoop.isConfigEnvOrStateAccess = false ∧
      (Event.invokeRunLoop.isOutputEffect = true →
        ∃ s : String, Event.invokeRunLoop = Event.emitErrorStream s ∧
          s = (main sampleContext HostBehavior.shutdown).stderr ∧
          (main sampleContext HostBehavior.shutdown).exitCode ≠ 0) :=
  component_frame sampleContext HostBehavior.shutdown Event.invokeRunLoop
    (by decide)

/-- C9: on every fatal failure the error-stream diagnostic is exactly the
fixed text followed by the separator and the failing error's rendered
description, so it is never empty and always names the shell as the
source. -/
theorem fatal_diagnostic_format (ctx : Context) (b : HostBehavior)
    (e : TauriError) (h : Builder.run Builder.default ctx b = Except.error e) :
    (main ctx b).stderr = (expectMsg ++ colonSep) ++ e.debugRepr ∧
      (main ctx b).stderr ≠ "" ∧
      expectMsg = "error while running tauri application" := by
  rw [main_error_case ctx b e h]
  exact ⟨rfl, panicMessage_ne_empty expectMsg e, rfl⟩

/-- Witness for C9 at a concrete platform initialization failure. -/
theorem fatal_diagnostic_format_witness :
    (main badContext HostBehavior.shutdown).stderr =
        (expectMsg ++ colonSep) ++
          (TauriError.mk ErrorSource.hostInit invalidContextMsg).debugRepr ∧
      (main badContext HostBehavior.shutdown).stderr ≠ "" ∧
      expectMsg = "error while running tauri application" :=
  fatal_diagnostic_format badContext HostBehavior.shutdown
    (TauriError.mk ErrorSource.hostInit invalidContextMsg) rfl

/-- C10: the runtime context is resolved at compile time — code generation
succeeds exactly when the bundle is present and well-formed — and every
error `main` can die on at runtime originates in host initialization or in
the run loop, never in a missing context. -/
theorem context_resolved_at_build_time (bundle : ContextBundle)
    (ctx : Context) (b : HostBehavior) (e : TauriError)
    (h : Builder.run Builder.default ctx b = Except.error e) :
    (generateContext bundle).isSome = (bundle.present && bundle.wellFormed) ∧
      e.source ≠ ErrorSource.missingContext ∧
      (e.source = ErrorSource.hostInit ∨ e.source = ErrorSource.runLoop) := by
  have hsrc : e.source = ErrorSource.hostInit ∨ e.source = ErrorSource.runLoop := by
    unfold Builder.run at h
    cases hh : hostRun ctx b with
    | gracefulShutdown =>
        rw [hh] at h
        simp at h
    | initError e2 =>
        rw [hh] at h
        have he : e2 = e := by simpa using h
        exact Or.inl (he ▸ hostRun_initError_source ctx b e2 hh)
    | runLoopError e2 =>
        rw [hh] at h
        have he : e2 = e := by simpa using h
        exact Or.inr (he ▸ hostRun_runLoopError_source ctx b e2 hh)
  refine ⟨?_, ?_, hsrc⟩
  · cases hc : (bundle.present && bundle.wellFormed) <;>
      simp [generateContext, hc]
  · rcases hsrc with hs | hs <;> rw [hs] <;> simp

/-- Witness for C10 at a well-formed bundle and a concrete mid-session
run-loop failure. -/
theorem context_resolved_at_build_time_witness :
    (generateContext (ContextBundle.mk true true sampleContext)).isSome =
        ((ContextBundle.mk true true sampleContext).present &&
          (ContextBundle.mk true true sampleContext).wellFormed) ∧
      (TauriError.mk ErrorSource.runLoop midSessionMsg).source ≠
        ErrorSource.missingContext ∧
      ((TauriError.mk ErrorSource.runLoop midSessionMsg).source =
          ErrorSource.hostInit ∨
        (TauriError.mk ErrorSource.runLoop midSessionMsg).source =
          ErrorSource.runLoop) :=
  context_resolved_at_build_time (ContextBundle.mk true true sampleContext)
    sampleContext (HostBehavior.runLoopFailure midSessionMsg)
    (TauriError.mk ErrorSource.runLoop midSessionMsg) rfl

end Shell
